import Mathlib

/-!
Shallow embedding of the Niya chat backend (chat.service.ts,
websocket.service.ts, chat.gateway.ts): the connection registry, room
router, rate limiter, persistence store, and the socket message delivery
flow, together with theorems settling the specification claims C1..C10.

Modelling conventions: message ids and timestamps are naturals drawn from
counters in the store (the source uses generated string ids and Date
values); JavaScript Maps and Sets are modelled as Option-valued functions
and duplicate-free lists; the upstream AI call is an oracle argument of
type UpstreamOutcome standing for the possible results of the HTTP call
in generateMockAIResponse.
-/

namespace Niya

/-- Metadata values stored in a message's free-form JSON metadata map;
the 0.9 confidence literal is modelled as the exact pair num 9 10. -/
inductive MetaVal where
  | b (x : Bool)
  | nat (n : Nat)
  | str (s : String)
  | strList (l : List String)
  | num (numerator denominator : Nat)
  deriving DecidableEq

/-- A persisted chat message (prisma Message row). -/
structure Message where
  id : Nat
  chatId : String
  userId : Nat
  agentId : String
  content : String
  role : String
  timestamp : Nat
  metadata : List (String × MetaVal)
  deriving DecidableEq

/-- A persisted conversation (prisma Chat row). -/
structure Chat where
  id : String
  userId : Nat
  agentId : String
  title : String
  messageCount : Nat
  lastMessage : String
  updatedAt : Nat
  deriving DecidableEq

/-- The persistence collaborator: chats and messages, plus an id counter
and a clock supplying strictly increasing creation timestamps (messages
are stored in creation order, so ascending-timestamp order is list
order). -/
structure Db where
  chats : List Chat
  messages : List Message
  nextId : Nat
  clock : Nat
  deriving DecidableEq

/-- prisma.chat.findFirst with where id = chatId and userId = userId,
the ownership check used throughout chat.service.ts and
websocket.service.ts. -/
def findChat (db : Db) (chatId : String) (userId : Nat) : Option Chat :=
  db.chats.find? (fun c => c.id == chatId && c.userId == userId)

/-- Result of prisma.message.create: the updated store and the row. -/
structure CreateResult where
  db : Db
  msg : Message
  deriving DecidableEq

/-- prisma.message.create: appends the row, stamping it with the id and
clock counters. -/
def createMessage (db : Db) (chatId : String) (userId : Nat)
    (agentId content role : String) (metadata : List (String × MetaVal)) :
    CreateResult :=
  let m : Message :=
    { id := db.nextId, chatId := chatId, userId := userId, agentId := agentId,
      content := content, role := role, timestamp := db.clock,
      metadata := metadata }
  { db := { db with
      messages := db.messages ++ [m]
      nextId := db.nextId + 1
      clock := db.clock + 1 },
    msg := m }

/-- prisma.chat.update after persisting a message: increments
messageCount, stores the last-message snippet and refreshes updatedAt
(chat.service.ts sendMessage and generateAIResponse). -/
def updateChatAfterMessage (db : Db) (chatId : String) (lastMsg : String) :
    Db :=
  { db with
    chats := db.chats.map (fun c =>
      if c.id == chatId then
        { c with
          messageCount := c.messageCount + 1
          lastMessage := lastMsg
          updatedAt := db.clock }
      else c)
    clock := db.clock + 1 }

/-- The rate limiter entry stored per userId:messageType key
(websocket.service.ts rateLimiter map). The count is an integer so that
non-negativity is a provable property rather than a typing artifact. -/
structure RateEntry where
  count : Int
  resetTime : Nat
  deriving DecidableEq

/-- The rate limiter map, keyed by (userId, messageType). -/
abbrev RateMap := Nat × String → Option RateEntry

/-- websocket.service.ts checkRateLimit: fixed 60000 ms window, lazily
reset when now has passed resetTime, count incremented on every call
(also on rejected calls) and the event accepted while count stays at or
below 100. Returns the decision and the updated map. -/
def checkRateLimit (rl : RateMap) (userId : Nat) (messageType : String)
    (now : Nat) : Bool × RateMap :=
  let key : Nat × String := (userId, messageType)
  let limit0 : RateEntry :=
    (rl key).getD { count := 0, resetTime := now + 60000 }
  let limit1 : RateEntry :=
    if limit0.resetTime < now then { count := 0, resetTime := now + 60000 }
    else limit0
  let limit2 : RateEntry := { limit1 with count := limit1.count + 1 }
  (decide (limit2.count ≤ 100), fun k => if k = key then some limit2 else rl k)

/-- A sequence of checkRateLimit calls for one key at the given times,
collecting the accept/reject decisions in order. -/
def rateCalls (rl : RateMap) (userId : Nat) (messageType : String) :
    List Nat → List Bool × RateMap
  | [] => ([], rl)
  | t :: ts =>
    let r := checkRateLimit rl userId messageType t
    let rest := rateCalls r.2 userId messageType ts
    (r.1 :: rest.1, rest.2)

/-- The decisions checkRateLimit produces for n consecutive in-window
calls starting from stored count c: the k-th call is accepted exactly
when c + k stays at or below 100. -/
def expectedDecisions (c : Int) : Nat → List Bool
  | 0 => []
  | n + 1 => decide (c + 1 ≤ 100) :: expectedDecisions (c + 1) n

lemma rateCalls_inWindow (userId : Nat) (messageType : String) (R : Nat) :
    ∀ (times : List Nat) (rl : RateMap) (c : Int),
      rl (userId, messageType) = some { count := c, resetTime := R } →
      (∀ t ∈ times, t ≤ R) →
      (rateCalls rl userId messageType times).1 =
          expectedDecisions c times.length ∧
      (rateCalls rl userId messageType times).2 (userId, messageType) =
          some { count := c + times.length, resetTime := R } := by
  intro times
  induction times with
  | nil =>
    intro rl c hkey _
    simpa [rateCalls, expectedDecisions] using hkey
  | cons t ts ih =>
    intro rl c hkey htimes
    have ht : t ≤ R := htimes t (List.mem_cons_self t ts)
    have hts : ∀ x ∈ ts, x ≤ R := fun x hx =>
      htimes x (List.mem_cons_of_mem t hx)
    have hnotreset : ¬ (R < t) := Nat.not_lt.mpr ht
    have hstep :
        checkRateLimit rl userId messageType t =
          (decide (c + 1 ≤ 100),
           fun k => if k = (userId, messageType)
             then some { count := c + 1, resetTime := R } else rl k) := by
      simp [checkRateLimit, hkey, hnotreset]
    have hkey2 :
        (fun k => if k = (userId, messageType)
           then some { count := c + 1, resetTime := R }
           else rl k) (userId, messageType) =
          some { count := c + 1, resetTime := R } := by simp
    have hrec := ih (fun k => if k = (userId, messageType)
        then some { count := c + 1, resetTime := R } else rl k)
      (c + 1) hkey2 hts
    refine ⟨?_, ?_⟩
    · simp only [rateCalls, hstep, List.length_cons, expectedDecisions]
      exact congrArg (List.cons (decide (c + 1 ≤ 100))) hrec.1
    · simp only [rateCalls, hstep, List.length_cons]
      rw [hrec.2]
      have harith : c + 1 + (ts.length : Int) = c + ((ts.length : Int) + 1) := by
        ring
      rw [harith]
      norm_cast

/-- C6: the fixed-window rate limiter accepts at most 100 events per
60-second window (the k-th of a run of in-window calls on a fresh key is
accepted exactly while k stays at or below 100, so the 101st is
rejected), the first call after window expiry is accepted with the count
reset to 0 before incrementing (stored count 1), and stored counts never
go negative. -/
theorem checkRateLimit_window_bound :
    (∀ (userId : Nat) (messageType : String) (rl : RateMap) (t0 : Nat)
        (ts : List Nat),
      rl (userId, messageType) = none →
      (∀ t ∈ ts, t ≤ t0 + 60000) →
      (rateCalls rl userId messageType (t0 :: ts)).1 =
          expectedDecisions 0 (ts.length + 1) ∧
      (rateCalls rl userId messageType (t0 :: ts)).2 (userId, messageType) =
          some { count := ((ts.length : Int) + 1), resetTime := t0 + 60000 }) ∧
    expectedDecisions 0 101 = List.replicate 100 true ++ [false] ∧
    (∀ (userId : Nat) (messageType : String) (rl : RateMap) (e : RateEntry)
        (now : Nat),
      rl (userId, messageType) = some e → e.resetTime < now →
      (checkRateLimit rl userId messageType now).1 = true ∧
      (checkRateLimit rl userId messageType now).2 (userId, messageType) =
          some { count := 1, resetTime := now + 60000 }) ∧
    (∀ (userId : Nat) (messageType : String) (rl : RateMap) (now : Nat),
      (∀ k e, rl k = some e → 0 ≤ e.count) →
      ∀ k e, (checkRateLimit rl userId messageType now).2 k = some e →
        0 ≤ e.count) := by
  refine ⟨?_, by decide, ?_, ?_⟩
  · intro userId messageType rl t0 ts hfresh hts
    have hnotreset : ¬ (t0 + 60000 < t0) := by omega
    have hstep :
        checkRateLimit rl userId messageType t0 =
          (true,
           fun k => if k = (userId, messageType)
             then some { count := 1, resetTime := t0 + 60000 } else rl k) := by
      simp [checkRateLimit, hfresh, hnotreset]
    have hkey2 :
        (fun k => if k = (userId, messageType)
           then some { count := 1, resetTime := t0 + 60000 }
           else rl k) (userId, messageType) =
          some { count := 1, resetTime := t0 + 60000 } := by simp
    have hrest := rateCalls_inWindow userId messageType (t0 + 60000) ts
      (fun k => if k = (userId, messageType)
        then some { count := 1, resetTime := t0 + 60000 } else rl k)
      1 hkey2 hts
    refine ⟨?_, ?_⟩
    · simp only [rateCalls, hstep, List.length_cons, expectedDecisions]
      have h1 : decide ((0 : Int) + 1 ≤ 100) = true := by decide
      rw [h1]
      exact congrArg (List.cons true) hrest.1
    · simp only [rateCalls, hstep]
      rw [hrest.2]
      have harith : (1 : Int) + (ts.length : Int) = (ts.length : Int) + 1 := by
        ring
      rw [harith]
  · intro userId messageType rl e now hkey hreset
    constructor
    · simp [checkRateLimit, hkey, hreset]
    · simp [checkRateLimit, hkey, hreset]
  · intro userId messageType rl now hnn k e hk
    by_cases hcase : k = (userId, messageType)
    · subst hcase
      rcases hkey : rl (userId, messageType) with _ | e0
      · have hnr : ¬ ((now + 60000 : Nat) < now) := by omega
        simp [checkRateLimit, hkey, hnr] at hk
        cases hk
        norm_num
      · have h0 : 0 ≤ e0.count := hnn _ _ hkey
        by_cases hr : e0.resetTime < now
        · simp [checkRateLimit, hkey, hr] at hk
          cases hk
          norm_num
        · simp [checkRateLimit, hkey, hr] at hk
          cases hk
          simp only []
          omega
    · simp [checkRateLimit, hcase] at hk
      exact hnn k e hk

/-- Witness for C6: a fresh key, three calls inside one window, decisions
as characterised by the theorem. -/
theorem checkRateLimit_window_bound_witness :
    ((fun _ => none : RateMap) (7, "message") = none) ∧
    (∀ t ∈ [1, 2], t ≤ 0 + 60000) ∧
    (rateCalls (fun _ => none) 7 "message" (0 :: [1, 2])).1 =
        expectedDecisions 0 (2 + 1) :=
  ⟨rfl, by decide,
    (checkRateLimit_window_bound.1 7 "message" (fun _ => none) 0 [1, 2]
      rfl (by decide)).1⟩

/-- Outbound socket events (websocket.service.ts / chat.gateway.ts emit
calls), restricted to the payload fields the claims are about. -/
inductive Event where
  | optimisticUserEcho (chatId content correlationId : String)
  | confirmedUserMsg (chatId : String) (dbId : Nat)
      (content correlationId : String)
  | typing (chatId agentId : String) (isTyping : Bool)
  | aiMessage (chatId : String) (dbId : Nat) (content : String)
      (isMultiMessage isFirst : Bool) (correlationId : String)
  | aiAdditionalMessage (chatId content : String)
      (messageIndex totalMessages : Nat) (correlationId : String)
  | errorMessage (errMsg : String) (code : Nat)
  deriving DecidableEq

/-- ConnectionInfo from socket.interface.ts: bound user, the transport
open flag (ws.connected), the set of joined chats and the heartbeat. -/
structure ConnInfo where
  userId : Nat
  connected : Bool
  joinedChats : List String
  lastPing : Nat
  deriving DecidableEq

/-- The WebSocketService in-memory state: connections registry, chat
rooms, rate limiter, plus the prisma store it talks to. -/
structure ServerState where
  connections : String → Option ConnInfo
  chatRooms : String → Option (List String)
  rateLimiter : RateMap
  db : Db

/-- websocket.service.ts addConnection. -/
def addConnection (s : ServerState) (connectionId : String)
    (info : ConnInfo) : ServerState :=
  { s with connections := fun k =>
      if k = connectionId then some info else s.connections k }

/-- websocket.service.ts joinChatRoom: create the room lazily, add the
connection to it, and record the membership on the connection. -/
def joinChatRoom (s : ServerState) (connectionId chatId : String) :
    ServerState :=
  match s.connections connectionId with
  | none => s
  | some conn =>
    let members := (s.chatRooms chatId).getD []
    let members2 :=
      if connectionId ∈ members then members else members ++ [connectionId]
    { s with
      chatRooms := fun k => if k = chatId then some members2 else s.chatRooms k
      connections := fun k =>
        if k = connectionId then
          some { conn with joinedChats :=
            if chatId ∈ conn.joinedChats then conn.joinedChats
            else conn.joinedChats ++ [chatId] }
        else s.connections k }

/-- websocket.service.ts leaveChatRoom: drop the connection from the
room, delete the room when it becomes empty, and drop the membership
from the connection. -/
def leaveChatRoom (s : ServerState) (connectionId chatId : String) :
    ServerState :=
  match s.connections connectionId with
  | none => s
  | some conn =>
    let rooms2 : String → Option (List String) :=
      match s.chatRooms chatId with
      | none => s.chatRooms
      | some members =>
        let members2 := members.filter (fun c => c != connectionId)
        if members2.isEmpty then
          fun k => if k = chatId then none else s.chatRooms k
        else
          fun k => if k = chatId then some members2 else s.chatRooms k
    { s with
      chatRooms := rooms2
      connections := fun k =>
        if k = connectionId then
          some { conn with joinedChats :=
            conn.joinedChats.filter (fun c => c != chatId) }
        else s.connections k }

/-- websocket.service.ts removeConnection: leave every joined room, then
delete the connection from the registry. -/
def removeConnection (s : ServerState) (connectionId : String) :
    ServerState :=
  match s.connections connectionId with
  | none => s
  | some conn =>
    let s2 := conn.joinedChats.foldl
      (fun st chatId => leaveChatRoom st connectionId chatId) s
    { s2 with connections := fun k =>
        if k = connectionId then none else s2.connections k }

/-- The transport-open test used by broadcastToChat: the connection is in
the registry and its socket reports connected. -/
def connOpen (s : ServerState) (connectionId : String) : Bool :=
  match s.connections connectionId with
  | some conn => conn.connected
  | none => false

/-- websocket.service.ts broadcastToChat: deliver the event to every
member of the room whose transport is open; absent rooms are a no-op.
Returns the unchanged state and the (recipient, event) deliveries. -/
def broadcastToChat (s : ServerState) (chatId : String) (message : Event) :
    ServerState × List (String × Event) :=
  match s.chatRooms chatId with
  | none => (s, [])
  | some members =>
    (s, (members.filter (fun connectionId => connOpen s connectionId)).map
      (fun connectionId => (connectionId, message)))

/-- What one leaveChatRoom call does to one room entry. -/
def roomAfterLeave (room : Option (List String)) (connectionId : String) :
    Option (List String) :=
  match room with
  | none => none
  | some members =>
    let members2 := members.filter (fun c => c != connectionId)
    if members2.isEmpty then none else some members2

lemma leaveChatRoom_connections (s : ServerState)
    (connectionId chatId : String) (conn : ConnInfo)
    (h : s.connections connectionId = some conn) :
    (leaveChatRoom s connectionId chatId).connections connectionId =
      some { conn with joinedChats :=
        conn.joinedChats.filter (fun c => c != chatId) } := by
  simp [leaveChatRoom, h]

lemma leaveChatRoom_rooms (s : ServerState) (connectionId chatId : String)
    (conn : ConnInfo) (h : s.connections connectionId = some conn)
    (r : String) :
    (leaveChatRoom s connectionId chatId).chatRooms r =
      if r = chatId then roomAfterLeave (s.chatRooms chatId) connectionId
      else s.chatRooms r := by
  simp only [leaveChatRoom, h]
  cases hroom : s.chatRooms chatId with
  | none =>
    by_cases hr : r = chatId
    · subst hr
      simp [roomAfterLeave, hroom]
    · simp [roomAfterLeave, hroom, hr]
  | some ms =>
    by_cases hempty : (ms.filter (fun c => c != connectionId)).isEmpty
    · by_cases hr : r = chatId <;>
        simp [roomAfterLeave, hroom, hempty, hr]
    · by_cases hr : r = chatId <;>
        simp [roomAfterLeave, hroom, hempty, hr]

lemma roomAfterLeave_idem (room : Option (List String))
    (connectionId : String) :
    roomAfterLeave (roomAfterLeave room connectionId) connectionId =
      roomAfterLeave room connectionId := by
  cases room with
  | none => rfl
  | some ms =>
    simp only [roomAfterLeave]
    by_cases h : (ms.filter (fun c => c != connectionId)).isEmpty
    · simp [h, roomAfterLeave]
    · simp only [h, if_neg, Bool.false_eq_true, not_false_eq_true,
        roomAfterLeave]
      have hfix : (ms.filter (fun c => c != connectionId)).filter
          (fun c => c != connectionId) =
          ms.filter (fun c => c != connectionId) :=
        List.filter_eq_self.mpr (fun a ha => (List.mem_filter.mp ha).2)
      rw [hfix]
      simp [h]

lemma foldLeave_spec (connectionId : String) :
    ∀ (chats : List String) (s : ServerState) (conn : ConnInfo),
      s.connections connectionId = some conn →
      (∃ conn2,
        (chats.foldl (fun st c => leaveChatRoom st connectionId c)
          s).connections connectionId = some conn2) ∧
      (∀ r,
        (chats.foldl (fun st c => leaveChatRoom st connectionId c)
          s).chatRooms r =
        if r ∈ chats then roomAfterLeave (s.chatRooms r) connectionId
        else s.chatRooms r) := by
  intro chats
  induction chats with
  | nil =>
    intro s conn h
    exact ⟨⟨conn, h⟩, fun r => by simp⟩
  | cons a rest ih =>
    intro s conn h
    have h1 := leaveChatRoom_connections s connectionId a conn h
    have hrec := ih (leaveChatRoom s connectionId a) _ h1
    refine ⟨?_, ?_⟩
    · simpa [List.foldl_cons] using hrec.1
    · intro r
      have hstep := leaveChatRoom_rooms s connectionId a conn h r
      have hr2 := hrec.2 r
      simp only [List.foldl_cons] at *
      rw [hr2, hstep]
      by_cases hmem : r ∈ rest
      · by_cases hra : r = a
        · subst hra
          simp [hmem, roomAfterLeave_idem]
        · simp [hmem, hra]
      · by_cases hra : r = a
        · subst hra
          simp [hmem]
        · simp [hmem, hra, List.mem_cons]

/-- C8: after removeConnection on a registered connection, the
connection id is gone from the registry, it is absent from the member
set of every room it had joined, every joined room whose membership
became empty by this removal is deleted from the room map, and rooms the
connection had not joined are untouched. -/
theorem removeConnection_cleanup (s : ServerState) (connectionId : String)
    (conn : ConnInfo) (h : s.connections connectionId = some conn) :
    (removeConnection s connectionId).connections connectionId = none ∧
    (∀ cid, cid ∈ conn.joinedChats → ∀ ms,
      (removeConnection s connectionId).chatRooms cid = some ms →
      connectionId ∉ ms) ∧
    (∀ cid, cid ∈ conn.joinedChats → ∀ ms, s.chatRooms cid = some ms →
      ms.filter (fun c => c != connectionId) = [] →
      (removeConnection s connectionId).chatRooms cid = none) ∧
    (∀ cid, cid ∉ conn.joinedChats →
      (removeConnection s connectionId).chatRooms cid = s.chatRooms cid) := by
  have hfold := foldLeave_spec connectionId conn.joinedChats s conn h
  refine ⟨?_, ?_, ?_, ?_⟩
  · simp [removeConnection, h]
  · intro cid hcid ms hms
    simp only [removeConnection, h] at hms
    rw [hfold.2 cid, if_pos hcid] at hms
    cases hroom : s.chatRooms cid with
    | none => rw [hroom] at hms; simp [roomAfterLeave] at hms
    | some ms0 =>
      rw [hroom] at hms
      simp only [roomAfterLeave] at hms
      by_cases hempty : (ms0.filter (fun c => c != connectionId)).isEmpty
      · simp [hempty] at hms
      · simp only [hempty, if_neg, Bool.false_eq_true, not_false_eq_true,
          Option.some_inj] at hms
        intro hmem
        rw [← hms] at hmem
        have := (List.mem_filter.mp hmem).2
        simp at this
  · intro cid hcid ms hms hemptyfilter
    simp only [removeConnection, h]
    rw [hfold.2 cid, if_pos hcid, hms]
    simp [roomAfterLeave, hemptyfilter]
  · intro cid hcid
    simp only [removeConnection, h]
    rw [hfold.2 cid, if_neg hcid]

/-- A two-connection, two-room concrete state used by the witnesses. -/
def connA : ConnInfo :=
  { userId := 1, connected := true, joinedChats := ["r1", "r2"],
    lastPing := 0 }

/-- Second registered connection of the concrete state. -/
def connB : ConnInfo :=
  { userId := 2, connected := true, joinedChats := ["r2"], lastPing := 0 }

/-- An empty store. -/
def emptyDb : Db := { chats := [], messages := [], nextId := 0, clock := 0 }

/-- Concrete registry/room state: c1 joined r1 and r2, c2 joined r2. -/
def roomState : ServerState :=
  { connections := fun k =>
      if k = "c1" then some connA
      else if k = "c2" then some connB
      else none,
    chatRooms := fun k =>
      if k = "r1" then some ["c1"]
      else if k = "r2" then some ["c1", "c2"]
      else none,
    rateLimiter := fun _ => none,
    db := emptyDb }

/-- Witness for C8: removing c1 from the concrete state. -/
theorem removeConnection_cleanup_witness :
    roomState.connections "c1" = some connA ∧
    ((removeConnection roomState "c1").connections "c1" = none ∧
     (∀ cid, cid ∈ connA.joinedChats → ∀ ms,
       (removeConnection roomState "c1").chatRooms cid = some ms →
       "c1" ∉ ms) ∧
     (∀ cid, cid ∈ connA.joinedChats → ∀ ms,
       roomState.chatRooms cid = some ms →
       ms.filter (fun c => c != "c1") = [] →
       (removeConnection roomState "c1").chatRooms cid = none) ∧
     (∀ cid, cid ∉ connA.joinedChats →
       (removeConnection roomState "c1").chatRooms cid =
         roomState.chatRooms cid)) :=
  ⟨rfl, removeConnection_cleanup roomState "c1" connA rfl⟩

/-- C9: broadcastToChat leaves the state unchanged (closed-transport
members are skipped, never removed; ids absent from the registry are a
silent no-op), every delivery carries the broadcast event, and the event
is delivered to exactly the connections that are members of the room at
broadcast time and have an open transport. -/
theorem broadcastToChat_exact (s : ServerState) (chatId : String)
    (message : Event) :
    (broadcastToChat s chatId message).1 = s ∧
    (∀ c ev, (c, ev) ∈ (broadcastToChat s chatId message).2 →
      ev = message) ∧
    (∀ c, (c, message) ∈ (broadcastToChat s chatId message).2 ↔
      ((∃ members, s.chatRooms chatId = some members ∧ c ∈ members) ∧
       (∃ conn, s.connections c = some conn ∧ conn.connected = true))) := by
  have hopen : ∀ c, connOpen s c = true ↔
      ∃ conn, s.connections c = some conn ∧ conn.connected = true := by
    intro c
    cases hc : s.connections c <;> simp [connOpen, hc]
  cases hroom : s.chatRooms chatId with
  | none =>
    refine ⟨by simp [broadcastToChat, hroom], ?_, ?_⟩
    · intro c ev hmem
      simp [broadcastToChat, hroom] at hmem
    · intro c
      simp [broadcastToChat, hroom]
  | some members =>
    refine ⟨by simp [broadcastToChat, hroom], ?_, ?_⟩
    · intro c ev hmem
      simp only [broadcastToChat, hroom, List.mem_map] at hmem
      obtain ⟨x, _, hx⟩ := hmem
      exact (Prod.mk.injEq _ _ _ _ ▸ hx).2.symm ▸ rfl
    · intro c
      constructor
      · intro hmem
        simp only [broadcastToChat, hroom, List.mem_map] at hmem
        obtain ⟨x, hxmem, hx⟩ := hmem
        have hxc : x = c := (Prod.mk.injEq _ _ _ _ ▸ hx).1
        subst hxc
        have hfilter := List.mem_filter.mp hxmem
        exact ⟨⟨members, rfl, hfilter.1⟩, (hopen x).mp hfilter.2⟩
      · rintro ⟨⟨ms2, hms2, hcmem⟩, hconn⟩
        have hms : ms2 = members := Option.some_inj.mp hms2.symm
        subst hms
        simp only [broadcastToChat, hroom, List.mem_map]
        exact ⟨c, List.mem_filter.mpr ⟨hcmem, (hopen c).mpr hconn⟩, rfl⟩

/-- Failure kinds raised out of the chat service send flow
(NotFoundException, BadRequestException for the agent id, and the
no-fallback Letta failure path). -/
inductive ErrKind where
  | chatNotFound
  | invalidAgent
  | upstreamUnavailable
  deriving DecidableEq

/-- chat.service.ts markMessagesAsRead: after the ownership check, each
listed message id of the chat has its metadata JSON column set to the
object with the single key read = true (prisma replaces the JSON value
wholesale); other columns and other messages are untouched. -/
def markMessagesAsRead (db : Db) (chatId : String) (userId : Nat)
    (messageIds : List Nat) : Except ErrKind Db :=
  match findChat db chatId userId with
  | none => Except.error ErrKind.chatNotFound
  | some _ =>
    Except.ok { db with messages := db.messages.map (fun m =>
      if messageIds.contains m.id && m.chatId == chatId then
        { m with metadata := [("read", MetaVal.b true)] }
      else m) }

/-- C10: on a chat owned by the caller, markMessagesAsRead succeeds and
replaces each targeted message's metadata wholesale by the single-key
map read = true (every previously stored key is discarded, since the
new metadata is exactly that singleton), while id, content, role and
timestamp are unchanged (the new row is the old row with only the
metadata field replaced); untargeted messages and all chats are
untouched. -/
theorem markMessagesAsRead_replaces_metadata (db : Db) (chatId : String)
    (userId : Nat) (messageIds : List Nat) (chat : Chat)
    (hchat : findChat db chatId userId = some chat) :
    ∃ db2, markMessagesAsRead db chatId userId messageIds = Except.ok db2 ∧
      db2.chats = db.chats ∧
      db2.messages.length = db.messages.length ∧
      (∀ (i : Nat) (m : Message), db.messages[i]? = some m →
        (messageIds.contains m.id = true → m.chatId = chatId →
          db2.messages[i]? =
            some { m with metadata := [("read", MetaVal.b true)] }) ∧
        (messageIds.contains m.id = false ∨ m.chatId ≠ chatId →
          db2.messages[i]? = some m)) := by
  refine ⟨{ db with messages := db.messages.map (fun m =>
      if messageIds.contains m.id && m.chatId == chatId then
        { m with metadata := [("read", MetaVal.b true)] }
      else m) }, ?_, rfl, by simp, ?_⟩
  · simp [markMessagesAsRead, hchat]
  · intro i m hm
    constructor
    · intro hid hcid
      have hcond : (messageIds.contains m.id && (m.chatId == chatId)) = true := by
        rw [hid, hcid]
        simp
      simp only [List.getElem?_map, hm, Option.map_some', hcond, if_true]
    · intro hcases
      have hcond : (messageIds.contains m.id && (m.chatId == chatId)) = false := by
        rcases hcases with hfalse | hne
        · rw [hfalse]
          simp
        · have hbeq : (m.chatId == chatId) = false := beq_eq_false_iff_ne.mpr hne
          rw [hbeq]
          simp
      simp only [List.getElem?_map, hm, Option.map_some', hcond,
        Bool.false_eq_true, if_false]

/-- Concrete chat owned by user 5, used by the C10 witness. -/
def chatW : Chat :=
  { id := "chat1", userId := 5, agentId := "priya", title := "t",
    messageCount := 2, lastMessage := "x", updatedAt := 0 }

/-- Concrete store with a message carrying several metadata keys. -/
def dbW : Db :=
  { chats := [chatW],
    messages :=
      [{ id := 0, chatId := "chat1", userId := 5, agentId := "priya",
         content := "hi", role := "user", timestamp := 0,
         metadata := [("messageIndex", MetaVal.nat 1),
                      ("totalMessages", MetaVal.nat 1),
                      ("read", MetaVal.b false)] },
       { id := 1, chatId := "chat1", userId := 5, agentId := "priya",
         content := "hey there", role := "assistant", timestamp := 1,
         metadata := [("confidence", MetaVal.num 9 10),
                      ("isMultiMessage", MetaVal.b true),
                      ("additionalMessages", MetaVal.strList ["more"])] }],
    nextId := 2, clock := 2 }

/-- Witness for C10: marking message 1 of the concrete store as read. -/
theorem markMessagesAsRead_replaces_metadata_witness :
    findChat dbW "chat1" 5 = some chatW ∧
    (∃ db2, markMessagesAsRead dbW "chat1" 5 [1] = Except.ok db2 ∧
      db2.chats = dbW.chats ∧
      db2.messages.length = dbW.messages.length ∧
      (∀ (i : Nat) (m : Message), dbW.messages[i]? = some m →
        (([1] : List Nat).contains m.id = true → m.chatId = "chat1" →
          db2.messages[i]? =
            some { m with metadata := [("read", MetaVal.b true)] }) ∧
        (([1] : List Nat).contains m.id = false ∨ m.chatId ≠ "chat1" →
          db2.messages[i]? = some m))) :=
  ⟨rfl, markMessagesAsRead_replaces_metadata dbW "chat1" 5 [1] chatW rfl⟩

/-- chat.service.ts generateAIResponse history fetch: findMany for the
chat ordered by ascending timestamp with take 20 — the FIRST twenty
stored messages of the conversation (messages are stored in ascending
timestamp order). -/
def conversationHistoryWindow (db : Db) (chatId : String) : List Message :=
  (db.messages.filter (fun m => m.chatId == chatId)).take 20

/-- The msg.content and msg.content.trim().length > 0 test of the
context filter, as the equivalent kernel-computable check that the
content holds at least one non-whitespace character. -/
def contentNonBlank (content : String) : Bool :=
  content.data.any (fun c => !c.isWhitespace)

/-- chat.service.ts generateAIResponse context build: the fetched window
with empty-content messages filtered out, mapped to role/content pairs,
with the new user text appended last. -/
def contextMessages (db : Db) (chatId : String) (userMessage : String) :
    List (String × String) :=
  ((conversationHistoryWindow db chatId).filter
      (fun m => contentNonBlank m.content)).map (fun m => (m.role, m.content)) ++
    [("user", userMessage)]

/-- The JSON body of the upstream POST /message call. -/
structure UpstreamRequest where
  message : String
  conversationHistory : List (String × String)
  systemPrompt : String
  deriving DecidableEq

/-- websocket.service.ts variant generateMockAIResponse request build:
message is the last context entry's content, conversation_history is the
context limited to its last 6 entries (slice(-6)), plus the system
prompt. -/
def buildUpstreamRequest (systemPrompt : String)
    (msgs : List (String × String)) : UpstreamRequest :=
  { message := (msgs.getLastD ("user", "")).2,
    conversationHistory := msgs.drop (msgs.length - 6),
    systemPrompt := systemPrompt }

/-- Modelled from the spec words for contrast (spec section 4.4 step 4:
a bounded window of the MOST RECENT prior messages, recency-ordered
oldest first, capped at 20): the last 20 stored messages of the
conversation. -/
def specRecentWindow (db : Db) (chatId : String) : List Message :=
  let all := db.messages.filter (fun m => m.chatId == chatId)
  all.drop (all.length - 20)

/-- A conversation with 21 stored messages m1..m21 in ascending
timestamp order. -/
def mkHistoryMessage (i : Nat) : Message :=
  { id := i, chatId := "chat1", userId := 5, agentId := "priya",
    content := "m" ++ toString (i + 1),
    role := if i % 2 == 0 then "user" else "assistant",
    timestamp := i, metadata := [] }

/-- Store holding the 21-message conversation. -/
def db21 : Db :=
  { chats := [chatW], messages := (List.range 21).map mkHistoryMessage,
    nextId := 21, clock := 21 }

/-- C7 evidence: on a conversation with 21 stored messages the code's
window is the OLDEST 20 (m1 is in, the most recent m21 is out), differing
from the spec's most-recent window which contains m21; the upstream
request payload is capped at 6 entries and the new user text is appended
last and is the request message. -/
theorem conversationHistoryWindow_drops_most_recent :
    (conversationHistoryWindow db21 "chat1").length = 20 ∧
    "m1" ∈ (conversationHistoryWindow db21 "chat1").map
      (fun m => m.content) ∧
    "m21" ∉ (conversationHistoryWindow db21 "chat1").map
      (fun m => m.content) ∧
    "m21" ∈ (specRecentWindow db21 "chat1").map (fun m => m.content) ∧
    conversationHistoryWindow db21 "chat1" ≠ specRecentWindow db21 "chat1" ∧
    (buildUpstreamRequest "sys"
      (contextMessages db21 "chat1" "hello")).conversationHistory.length
      = 6 ∧
    (buildUpstreamRequest "sys"
      (contextMessages db21 "chat1" "hello")).message = "hello" ∧
    (contextMessages db21 "chat1" "hello").getLast? =
      some ("user", "hello") := by
  decide

/-- Outcome of the upstream AI HTTP call made by generateMockAIResponse
(websocket.service.ts variant: the Letta bridge returns either a single
response string or a list of reply segments, or the call fails; no local
fallback, the failure propagates). -/
inductive UpstreamOutcome where
  | single (response : String)
  | bridge (messages : List String)
  | failure
  deriving DecidableEq

/-- generateAIResponse reply parsing: a bridge payload yields
messages[0] (falling back to the string Hello! when it is absent or
empty), the remaining segments (slice(1)), and the multi-message flag
messages.length > 1; a plain string is a single reply with no additional
segments. -/
def parseUpstream : UpstreamOutcome → Option (String × List String × Bool)
  | UpstreamOutcome.failure => none
  | UpstreamOutcome.single r => some (r, [], false)
  | UpstreamOutcome.bridge ms =>
    let primary : String :=
      match ms with
      | [] => "Hello!"
      | h :: _ => if h = "" then "Hello!" else h
    some (primary, ms.drop 1, decide (1 < ms.length))

/-- The SendMessageResponse record returned by chat.service.ts
sendMessage / generateAIResponse. -/
structure SendMessageResponse where
  id : Nat
  chatId : String
  userId : Nat
  agentId : String
  content : String
  role : String
  timestamp : Nat
  metadata : List (String × MetaVal)
  isMultiMessage : Bool
  additionalMessages : List String
  deriving DecidableEq

/-- Store writes and socket emissions of one send flow, in program
order; each send act records its recipient connection ids. -/
inductive Act where
  | persistMessage (m : Message)
  | updateChat (chatId : String)
  | send (recipients : List String) (ev : Event)
  deriving DecidableEq

/-- Result of the chat-service part of a send: the store after the call
(store writes survive a later error, as each prisma call commits), the
store actions in order, and the response or the error. -/
structure SendOutcome where
  db : Db
  acts : List Act
  result : Except ErrKind SendMessageResponse

/-- The fixed set of valid persona/agent ids (validAgentIds and
agentToPersonaMap in chat.service.ts). -/
def validAgentPersona (agentId : String) : Bool :=
  agentId == "therapist" || agentId == "dietician" || agentId == "career" ||
    agentId == "priya"

/-- The assistant-message metadata written by generateAIResponse:
confidence 0.9, the index fields derived from the fetched history
length, the read flag, the multi-message flag, and (only for
multi-message replies) the additional segments; undefined JSON values
are dropped, so the additionalMessages key is present only when
isMultiMessage holds. -/
def assistantMetadata (historyLen : Nat) (additionalMessages : List String)
    (isMultiMessage : Bool) : List (String × MetaVal) :=
  [("confidence", MetaVal.num 9 10),
   ("messageIndex", MetaVal.nat (historyLen + 2)),
   ("totalMessages", MetaVal.nat (historyLen + 2)),
   ("read", MetaVal.b false),
   ("isMultiMessage", MetaVal.b isMultiMessage)] ++
    (if isMultiMessage then
      [("additionalMessages", MetaVal.strList additionalMessages)]
    else [])

/-- chat.service.ts generateAIResponse: validate the agent id, fetch the
history window, build the context and the upstream request, call
upstream, parse the reply, persist the primary assistant message (the
additional segments are only recorded in its metadata, not persisted as
rows), and update the chat counters. -/
def generateAIResponse (db : Db) (chatId : String) (userId : Nat)
    (agentId userMessage systemPrompt : String)
    (upstream : UpstreamOutcome) : SendOutcome :=
  if validAgentPersona agentId then
    let _req := buildUpstreamRequest systemPrompt
      (contextMessages db chatId userMessage)
    match parseUpstream upstream with
    | none =>
      { db := db, acts := [],
        result := Except.error ErrKind.upstreamUnavailable }
    | some (primaryResponse, additionalMessages, isMultiMessage) =>
      let historyLen := (conversationHistoryWindow db chatId).length
      let c := createMessage db chatId userId agentId primaryResponse
        "assistant"
        (assistantMetadata historyLen additionalMessages isMultiMessage)
      let db2 := updateChatAfterMessage c.db chatId primaryResponse
      { db := db2,
        acts := [Act.persistMessage c.msg, Act.updateChat chatId],
        result := Except.ok
          { id := c.msg.id, chatId := chatId, userId := userId,
            agentId := agentId, content := primaryResponse,
            role := "assistant", timestamp := c.msg.timestamp,
            metadata := c.msg.metadata, isMultiMessage := isMultiMessage,
            additionalMessages := additionalMessages } }
  else
    { db := db, acts := [], result := Except.error ErrKind.invalidAgent }

/-- The user-message metadata written by chat.service.ts sendMessage:
index fields derived from the chat's current message count, plus the
unread flag. -/
def userMessageMetadata (chat : Chat) : List (String × MetaVal) :=
  [("messageIndex", MetaVal.nat (chat.messageCount + 1)),
   ("totalMessages", MetaVal.nat (chat.messageCount + 1)),
   ("read", MetaVal.b false)]

/-- chat.service.ts sendMessage: ownership check, persist the user
message with its index metadata, update the chat counters, then generate
the AI response. -/
def chatSendMessage (db : Db) (chatId : String) (userId : Nat)
    (content agentId systemPrompt : String) (upstream : UpstreamOutcome) :
    SendOutcome :=
  match findChat db chatId userId with
  | none =>
    { db := db, acts := [], result := Except.error ErrKind.chatNotFound }
  | some chat =>
    let c := createMessage db chatId userId agentId content "user"
      (userMessageMetadata chat)
    let db2 := updateChatAfterMessage c.db chatId content
    let g := generateAIResponse db2 chatId userId agentId content
      systemPrompt upstream
    { db := g.db,
      acts := Act.persistMessage c.msg :: Act.updateChat chatId :: g.acts,
      result := g.result }

/-- The data fields of an inbound socket message event
(payload.data in websocket.service.ts handleMessage); messageId is the
client-supplied correlation id. -/
structure Payload where
  chatId : String
  content : String
  agentId : String
  messageId : String
  deriving DecidableEq

/-- websocket.service.ts handleMessage user-message lookup after the
send: findFirst on chatId/userId/content/role user ordered by timestamp
descending, i.e. the last stored match. -/
def findUserMessageDesc (db : Db) (chatId : String) (userId : Nat)
    (content : String) : Option Message :=
  db.messages.reverse.find? (fun m =>
    m.chatId == chatId && m.userId == userId && m.content == content &&
      m.role == "user")

/-- The staged emissions for the additional segments of a multi-message
reply (websocket.service.ts handleMessage setTimeout body): per segment,
typing on, typing off, then the segment tagged with messageIndex i+2 and
the total count additionalMessages.length + 1, to the originating client
only. -/
def additionalEmissions (clientId : String) (p : Payload)
    (ai : SendMessageResponse) : List Act :=
  if ai.isMultiMessage then
    ai.additionalMessages.enum.flatMap (fun pair =>
      [Act.send [clientId] (Event.typing p.chatId p.agentId true),
       Act.send [clientId] (Event.typing p.chatId p.agentId false),
       Act.send [clientId] (Event.aiAdditionalMessage p.chatId pair.2
         (pair.1 + 2) (ai.additionalMessages.length + 1)
         (p.messageId ++ "_ai_" ++ toString (pair.1 + 1)))])
  else []

/-- websocket.service.ts handleMessage after the guards: optimistic
echo, typing on, the chat-service send; then on failure the error event
followed by the forced typing off (guarded on the payload carrying
chatId and agentId, as in the catch block), or on success the confirmed
user message (when the lookup finds it), typing off, the primary
assistant emission tagged first, and the staged additional segments.
Every emission goes to the originating client only. -/
def handleMessageBody (clientId : String) (p : Payload) (userId : Nat)
    (db : Db) (systemPrompt : String) (upstream : UpstreamOutcome) :
    Db × List Act × Bool :=
  let pre : List Act :=
    [Act.send [clientId]
      (Event.optimisticUserEcho p.chatId p.content p.messageId),
     Act.send [clientId] (Event.typing p.chatId p.agentId true)]
  let sm := chatSendMessage db p.chatId userId p.content p.agentId
    systemPrompt upstream
  match sm.result with
  | Except.error _ =>
    (sm.db,
     pre ++ sm.acts ++
       ([Act.send [clientId]
          (Event.errorMessage "Failed to process message" 400)] ++
        (if p.chatId != "" && p.agentId != "" then
          [Act.send [clientId] (Event.typing p.chatId p.agentId false)]
        else [])),
     false)
  | Except.ok ai =>
    let confirmActs : List Act :=
      match findUserMessageDesc sm.db p.chatId userId p.content with
      | some um =>
        [Act.send [clientId]
          (Event.confirmedUserMsg p.chatId um.id um.content p.messageId)]
      | none => []
    (sm.db,
     pre ++ sm.acts ++ confirmActs ++
       [Act.send [clientId] (Event.typing p.chatId p.agentId false),
        Act.send [clientId] (Event.aiMessage p.chatId ai.id ai.content
          ai.isMultiMessage true (p.messageId ++ "_ai"))] ++
       additionalEmissions clientId p ai,
     true)

/-- websocket.service.ts handleMessage guards: registry lookup, rate
limit (whose counter is updated even on rejection), payload format
validation (JS falsiness of the strings), chat ownership, then the send
flow; now is the wall-clock instant of the event. -/
def handleMessage (s : ServerState) (clientId : String) (p : Payload)
    (now : Nat) (systemPrompt : String) (upstream : UpstreamOutcome) :
    ServerState × List Act × Bool :=
  match s.connections clientId with
  | none =>
    (s,
     [Act.send [clientId] (Event.errorMessage "Connection not found" 400)],
     false)
  | some conn =>
    let rl := checkRateLimit s.rateLimiter conn.userId "message" now
    let s1 : ServerState := { s with rateLimiter := rl.2 }
    if rl.1 = false then
      (s1,
       [Act.send [clientId] (Event.errorMessage "Rate limit exceeded" 400)],
       false)
    else if p.chatId == "" || p.content == "" || p.agentId == "" then
      (s1,
       [Act.send [clientId] (Event.errorMessage "Invalid message format" 400)],
       false)
    else
      match findChat s1.db p.chatId conn.userId with
      | none =>
        (s1,
         [Act.send [clientId] (Event.errorMessage "Access denied to chat" 400)],
         false)
      | some _chat =>
        let body := handleMessageBody clientId p conn.userId s1.db
          systemPrompt upstream
        ({ s1 with db := body.1 }, body.2.1, body.2.2)

lemma handleMessage_guards (s : ServerState) (clientId : String)
    (p : Payload) (now : Nat) (systemPrompt : String)
    (upstream : UpstreamOutcome) (conn : ConnInfo) (chat : Chat)
    (hconn : s.connections clientId = some conn)
    (hrl : (checkRateLimit s.rateLimiter conn.userId "message" now).1 = true)
    (hc : p.chatId ≠ "") (hco : p.content ≠ "") (ha : p.agentId ≠ "")
    (hchat : findChat s.db p.chatId conn.userId = some chat) :
    handleMessage s clientId p now systemPrompt upstream =
      ({ s with
          rateLimiter :=
            (checkRateLimit s.rateLimiter conn.userId "message" now).2
          db := (handleMessageBody clientId p conn.userId s.db
            systemPrompt upstream).1 },
       (handleMessageBody clientId p conn.userId s.db systemPrompt
         upstream).2.1,
       (handleMessageBody clientId p conn.userId s.db systemPrompt
         upstream).2.2) := by
  have hc2 : (p.chatId == "") = false := beq_eq_false_iff_ne.mpr hc
  have hco2 : (p.content == "") = false := beq_eq_false_iff_ne.mpr hco
  have ha2 : (p.agentId == "") = false := beq_eq_false_iff_ne.mpr ha
  simp only [handleMessage, hconn, hrl, hc2, hco2, ha2]
  simp [hchat]

/-- The user message row persisted by a send (sendMessage step 2). -/
def userRow (db : Db) (chatId : String) (userId : Nat)
    (agentId content : String) (chat : Chat) : CreateResult :=
  createMessage db chatId userId agentId content "user"
    (userMessageMetadata chat)

/-- The store after the user message is persisted and the chat counters
updated (sendMessage steps 2-3). -/
def dbAfterUser (db : Db) (chatId : String) (userId : Nat)
    (agentId content : String) (chat : Chat) : Db :=
  updateChatAfterMessage (userRow db chatId userId agentId content chat).db
    chatId content

/-- The primary assistant row persisted by generateAIResponse for a
parsed upstream reply. -/
def assistantRow (db : Db) (chatId : String) (userId : Nat)
    (agentId content : String) (chat : Chat) (primary : String)
    (additional : List String) (isMulti : Bool) : CreateResult :=
  let db2 := dbAfterUser db chatId userId agentId content chat
  createMessage db2 chatId userId agentId primary "assistant"
    (assistantMetadata (conversationHistoryWindow db2 chatId).length
      additional isMulti)

/-- The store after a fully successful send: user row, chat update,
assistant row, chat update. -/
def dbAfterSend (db : Db) (chatId : String) (userId : Nat)
    (agentId content : String) (chat : Chat) (primary : String)
    (additional : List String) (isMulti : Bool) : Db :=
  updateChatAfterMessage
    (assistantRow db chatId userId agentId content chat primary additional
      isMulti).db chatId primary

/-- The SendMessageResponse a successful send returns. -/
def aiResponseOf (db : Db) (chatId : String) (userId : Nat)
    (agentId content : String) (chat : Chat) (primary : String)
    (additional : List String) (isMulti : Bool) : SendMessageResponse :=
  { id := (assistantRow db chatId userId agentId content chat primary
      additional isMulti).msg.id,
    chatId := chatId, userId := userId, agentId := agentId,
    content := primary, role := "assistant",
    timestamp := (assistantRow db chatId userId agentId content chat
      primary additional isMulti).msg.timestamp,
    metadata := (assistantRow db chatId userId agentId content chat
      primary additional isMulti).msg.metadata,
    isMultiMessage := isMulti, additionalMessages := additional }

lemma chatSendMessage_success (db : Db) (chatId : String) (userId : Nat)
    (content agentId systemPrompt : String) (upstream : UpstreamOutcome)
    (chat : Chat) (primary : String) (additional : List String)
    (isMulti : Bool)
    (hchat : findChat db chatId userId = some chat)
    (hvalid : validAgentPersona agentId = true)
    (hup : parseUpstream upstream = some (primary, additional, isMulti)) :
    chatSendMessage db chatId userId content agentId systemPrompt upstream =
      { db := dbAfterSend db chatId userId agentId content chat primary
          additional isMulti,
        acts := [Act.persistMessage
            (userRow db chatId userId agentId content chat).msg,
          Act.updateChat chatId,
          Act.persistMessage (assistantRow db chatId userId agentId content
            chat primary additional isMulti).msg,
          Act.updateChat chatId],
        result := Except.ok (aiResponseOf db chatId userId agentId content
          chat primary additional isMulti) } := by
  simp [chatSendMessage, hchat, generateAIResponse, hvalid, hup, userRow,
    dbAfterUser, assistantRow, dbAfterSend, aiResponseOf]

lemma chatSendMessage_error (db : Db) (chatId : String) (userId : Nat)
    (content agentId systemPrompt : String) (upstream : UpstreamOutcome)
    (chat : Chat)
    (hchat : findChat db chatId userId = some chat)
    (herr : validAgentPersona agentId = false ∨
      parseUpstream upstream = none) :
    ∃ e, chatSendMessage db chatId userId content agentId systemPrompt
        upstream =
      { db := dbAfterUser db chatId userId agentId content chat,
        acts := [Act.persistMessage
            (userRow db chatId userId agentId content chat).msg,
          Act.updateChat chatId],
        result := Except.error e } := by
  rcases herr with hinvalid | hupfail
  · exact ⟨ErrKind.invalidAgent,
      by simp [chatSendMessage, hchat, generateAIResponse, hinvalid,
        userRow, dbAfterUser]⟩
  · by_cases hvalid : validAgentPersona agentId = true
    · exact ⟨ErrKind.upstreamUnavailable,
        by simp [chatSendMessage, hchat, generateAIResponse, hvalid,
          hupfail, userRow, dbAfterUser]⟩
    · have hinvalid : validAgentPersona agentId = false := by
        simpa using hvalid
      exact ⟨ErrKind.invalidAgent,
        by simp [chatSendMessage, hchat, generateAIResponse, hinvalid,
          userRow, dbAfterUser]⟩

lemma dbAfterSend_messages (db : Db) (chatId : String) (userId : Nat)
    (agentId content : String) (chat : Chat) (primary : String)
    (additional : List String) (isMulti : Bool) :
    (dbAfterSend db chatId userId agentId content chat primary additional
      isMulti).messages =
    db.messages ++ [(userRow db chatId userId agentId content chat).msg,
      (assistantRow db chatId userId agentId content chat primary
        additional isMulti).msg] := by
  simp [dbAfterSend, assistantRow, dbAfterUser, userRow, createMessage,
    updateChatAfterMessage]

lemma findUserMessageDesc_last (db : Db) (l : List Message)
    (um am : Message) (chatId : String) (userId : Nat) (content : String)
    (hmsgs : db.messages = l ++ [um, am])
    (hum1 : um.chatId = chatId) (hum2 : um.userId = userId)
    (hum3 : um.content = content) (hum4 : um.role = "user")
    (ham : am.role = "assistant") :
    findUserMessageDesc db chatId userId content = some um := by
  have hamfalse : (am.chatId == chatId && am.userId == userId &&
      am.content == content && am.role == "user") = false := by
    rw [ham]
    have : (("assistant" : String) == "user") = false := by decide
    rw [this]
    simp
  have humtrue : (um.chatId == chatId && um.userId == userId &&
      um.content == content && um.role == "user") = true := by
    rw [hum1, hum2, hum3, hum4]
    simp
  simp only [findUserMessageDesc, hmsgs, List.reverse_append]
  have hrev : ([um, am] : List Message).reverse = [am, um] := rfl
  rw [hrev]
  simp only [List.cons_append]
  rw [List.find?_cons_of_neg _ (by simp [hamfalse])]
  exact List.find?_cons_of_pos _ humtrue

/-- The full act trace of a successful send flow, in order: optimistic
echo, typing on, user-row persist, chat update, assistant-row persist,
chat update, confirmed user message, typing off, primary assistant
emission tagged first, then the staged additional-segment emissions. -/
def successTrace (clientId : String) (p : Payload) (userId : Nat)
    (db : Db) (chat : Chat) (primary : String) (additional : List String)
    (isMulti : Bool) : List Act :=
  [Act.send [clientId]
     (Event.optimisticUserEcho p.chatId p.content p.messageId),
   Act.send [clientId] (Event.typing p.chatId p.agentId true),
   Act.persistMessage
     (userRow db p.chatId userId p.agentId p.content chat).msg,
   Act.updateChat p.chatId,
   Act.persistMessage (assistantRow db p.chatId userId p.agentId p.content
     chat primary additional isMulti).msg,
   Act.updateChat p.chatId,
   Act.send [clientId] (Event.confirmedUserMsg p.chatId
     (userRow db p.chatId userId p.agentId p.content chat).msg.id
     (userRow db p.chatId userId p.agentId p.content chat).msg.content
     p.messageId),
   Act.send [clientId] (Event.typing p.chatId p.agentId false),
   Act.send [clientId] (Event.aiMessage p.chatId
     (assistantRow db p.chatId userId p.agentId p.content chat primary
       additional isMulti).msg.id
     primary isMulti true (p.messageId ++ "_ai"))] ++
    additionalEmissions clientId p
      (aiResponseOf db p.chatId userId p.agentId p.content chat primary
        additional isMulti)

/-- The full act trace of a send flow that fails after the user message
was persisted: optimistic echo, typing on, user-row persist, chat
update, then the error event and only after it the forced typing off. -/
def errorTrace (clientId : String) (p : Payload) (userId : Nat)
    (db : Db) (chat : Chat) : List Act :=
  [Act.send [clientId]
     (Event.optimisticUserEcho p.chatId p.content p.messageId),
   Act.send [clientId] (Event.typing p.chatId p.agentId true),
   Act.persistMessage
     (userRow db p.chatId userId p.agentId p.content chat).msg,
   Act.updateChat p.chatId,
   Act.send [clientId]
     (Event.errorMessage "Failed to process message" 400),
   Act.send [clientId] (Event.typing p.chatId p.agentId false)]

lemma handleMessageBody_success (clientId : String) (p : Payload)
    (userId : Nat) (db : Db) (systemPrompt : String)
    (upstream : UpstreamOutcome) (chat : Chat) (primary : String)
    (additional : List String) (isMulti : Bool)
    (hchat : findChat db p.chatId userId = some chat)
    (hvalid : validAgentPersona p.agentId = true)
    (hup : parseUpstream upstream = some (primary, additional, isMulti)) :
    handleMessageBody clientId p userId db systemPrompt upstream =
      (dbAfterSend db p.chatId userId p.agentId p.content chat primary
        additional isMulti,
       successTrace clientId p userId db chat primary additional isMulti,
       true) := by
  have hsm := chatSendMessage_success db p.chatId userId p.content
    p.agentId systemPrompt upstream chat primary additional isMulti
    hchat hvalid hup
  have hfind := findUserMessageDesc_last
    (dbAfterSend db p.chatId userId p.agentId p.content chat primary
      additional isMulti)
    db.messages
    (userRow db p.chatId userId p.agentId p.content chat).msg
    (assistantRow db p.chatId userId p.agentId p.content chat primary
      additional isMulti).msg
    p.chatId userId p.content
    (dbAfterSend_messages db p.chatId userId p.agentId p.content chat
      primary additional isMulti)
    (by simp [userRow, createMessage]) (by simp [userRow, createMessage])
    (by simp [userRow, createMessage]) (by simp [userRow, createMessage])
    (by simp [assistantRow, createMessage])
  simp only [handleMessageBody, hsm, hfind]
  simp [successTrace, aiResponseOf]

lemma handleMessageBody_error (clientId : String) (p : Payload)
    (userId : Nat) (db : Db) (systemPrompt : String)
    (upstream : UpstreamOutcome) (chat : Chat)
    (hchat : findChat db p.chatId userId = some chat)
    (herr : validAgentPersona p.agentId = false ∨
      parseUpstream upstream = none)
    (hc : p.chatId ≠ "") (ha : p.agentId ≠ "") :
    handleMessageBody clientId p userId db systemPrompt upstream =
      (dbAfterUser db p.chatId userId p.agentId p.content chat,
       errorTrace clientId p userId db chat,
       false) := by
  obtain ⟨e, hsm⟩ := chatSendMessage_error db p.chatId userId p.content
    p.agentId systemPrompt upstream chat hchat herr
  have hc3 : (p.chatId != "") = true := by
    simp [hc]
  have ha3 : (p.agentId != "") = true := by
    simp [ha]
  simp only [handleMessageBody, hsm, hc3, ha3]
  simp [errorTrace]

/-- Number of persisted assistant messages of one conversation. -/
def assistantCount (db : Db) (chatId : String) : Nat :=
  (db.messages.filter
    (fun m => m.chatId == chatId && m.role == "assistant")).length

/-- C1 (amended): a valid send with a successfully parsed upstream reply
persists exactly two rows, the user message and ONE primary assistant
message, regardless of the number of reply segments; for a multi-segment
reply the additional segments are recorded only in the primary row's
metadata (isMultiMessage plus the additionalMessages list), so the
per-conversation assistant row count grows by exactly 1. -/
theorem sendFlow_persists_single_assistant_row
    (s : ServerState) (clientId : String) (p : Payload) (now : Nat)
    (systemPrompt : String) (upstream : UpstreamOutcome) (conn : ConnInfo)
    (chat : Chat) (primary : String) (additional : List String)
    (isMulti : Bool)
    (hconn : s.connections clientId = some conn)
    (hrl : (checkRateLimit s.rateLimiter conn.userId "message" now).1 = true)
    (hc : p.chatId ≠ "") (hco : p.content ≠ "") (ha : p.agentId ≠ "")
    (hchat : findChat s.db p.chatId conn.userId = some chat)
    (hvalid : validAgentPersona p.agentId = true)
    (hup : parseUpstream upstream = some (primary, additional, isMulti)) :
    (handleMessage s clientId p now systemPrompt upstream).2.2 = true ∧
    (handleMessage s clientId p now systemPrompt upstream).1.db.messages =
      s.db.messages ++
        [(userRow s.db p.chatId conn.userId p.agentId p.content chat).msg,
         (assistantRow s.db p.chatId conn.userId p.agentId p.content chat
           primary additional isMulti).msg] ∧
    (userRow s.db p.chatId conn.userId p.agentId p.content chat).msg.role =
      "user" ∧
    (assistantRow s.db p.chatId conn.userId p.agentId p.content chat
      primary additional isMulti).msg.role = "assistant" ∧
    assistantCount
      (handleMessage s clientId p now systemPrompt upstream).1.db p.chatId =
      assistantCount s.db p.chatId + 1 ∧
    (isMulti = true →
      ("isMultiMessage", MetaVal.b true) ∈
        (assistantRow s.db p.chatId conn.userId p.agentId p.content chat
          primary additional isMulti).msg.metadata ∧
      ("additionalMessages", MetaVal.strList additional) ∈
        (assistantRow s.db p.chatId conn.userId p.agentId p.content chat
          primary additional isMulti).msg.metadata) := by
  rw [handleMessage_guards s clientId p now systemPrompt upstream conn chat
      hconn hrl hc hco ha hchat,
    handleMessageBody_success clientId p conn.userId s.db systemPrompt
      upstream chat primary additional isMulti hchat hvalid hup]
  refine ⟨rfl, ?_, ?_, ?_, ?_, ?_⟩
  · exact dbAfterSend_messages s.db p.chatId conn.userId p.agentId
      p.content chat primary additional isMulti
  · simp [userRow, createMessage]
  · simp [assistantRow, createMessage]
  · show assistantCount (dbAfterSend s.db p.chatId conn.userId p.agentId
      p.content chat primary additional isMulti) p.chatId =
      assistantCount s.db p.chatId + 1
    rw [assistantCount, assistantCount, dbAfterSend_messages,
      List.filter_append]
    have huser : ((userRow s.db p.chatId conn.userId p.agentId p.content
        chat).msg.chatId == p.chatId &&
        (userRow s.db p.chatId conn.userId p.agentId p.content
          chat).msg.role == "assistant") = false := by
      simp [userRow, createMessage]
    have hassistant : ((assistantRow s.db p.chatId conn.userId p.agentId
        p.content chat primary additional isMulti).msg.chatId == p.chatId &&
        (assistantRow s.db p.chatId conn.userId p.agentId p.content chat
          primary additional isMulti).msg.role == "assistant") = true := by
      simp [assistantRow, createMessage]
    simp [huser, hassistant]
  · intro hmulti
    subst hmulti
    constructor <;> simp [assistantRow, createMessage, assistantMetadata]

/-- The conversation used by the concrete send-flow inputs. -/
def chatS : Chat :=
  { id := "chat1", userId := 1, agentId := "priya", title := "t",
    messageCount := 0, lastMessage := "", updatedAt := 0 }

/-- Store holding that conversation and no messages. -/
def dbS : Db := { chats := [chatS], messages := [], nextId := 0, clock := 0 }

/-- The originating connection of the concrete send. -/
def connS : ConnInfo :=
  { userId := 1, connected := true, joinedChats := ["chat1"], lastPing := 0 }

/-- Concrete server state: c1 (the sender) and c2 are registered, open,
and both subscribed to the conversation's room. -/
def sendState : ServerState :=
  { connections := fun k =>
      if k = "c1" then some connS
      else if k = "c2" then some connS
      else none,
    chatRooms := fun k => if k = "chat1" then some ["c1", "c2"] else none,
    rateLimiter := fun _ => none,
    db := dbS }

/-- The concrete inbound payload. -/
def pS : Payload :=
  { chatId := "chat1", content := "hi", agentId := "priya",
    messageId := "corr1" }

/-- C1 counterexample: a valid send whose upstream reply is segmented
into 2 segments ends with exactly 1 persisted assistant message, not 2
as the claim requires. -/
theorem sendFlow_twoSegment_counterexample :
    (handleMessage sendState "c1" pS 0 "sys"
      (UpstreamOutcome.bridge ["seg one", "seg two"])).2.2 = true ∧
    assistantCount sendState.db "chat1" = 0 ∧
    assistantCount (handleMessage sendState "c1" pS 0 "sys"
      (UpstreamOutcome.bridge ["seg one", "seg two"])).1.db "chat1" = 1 ∧
    ¬ (assistantCount (handleMessage sendState "c1" pS 0 "sys"
      (UpstreamOutcome.bridge ["seg one", "seg two"])).1.db "chat1" = 2) := by
  decide

/-- Witness for C1: the amended theorem applied to the concrete
two-segment send. -/
theorem sendFlow_persists_single_assistant_row_witness :
    (sendState.connections "c1" = some connS) ∧
    ((checkRateLimit sendState.rateLimiter connS.userId "message" 0).1 =
      true) ∧
    (findChat sendState.db pS.chatId connS.userId = some chatS) ∧
    (validAgentPersona pS.agentId = true) ∧
    (parseUpstream (UpstreamOutcome.bridge ["seg one", "seg two"]) =
      some ("seg one", ["seg two"], true)) ∧
    ((handleMessage sendState "c1" pS 0 "sys"
        (UpstreamOutcome.bridge ["seg one", "seg two"])).2.2 = true ∧
     (handleMessage sendState "c1" pS 0 "sys"
        (UpstreamOutcome.bridge ["seg one", "seg two"])).1.db.messages =
       sendState.db.messages ++
         [(userRow sendState.db pS.chatId connS.userId pS.agentId
            pS.content chatS).msg,
          (assistantRow sendState.db pS.chatId connS.userId pS.agentId
            pS.content chatS "seg one" ["seg two"] true).msg] ∧
     (userRow sendState.db pS.chatId connS.userId pS.agentId pS.content
       chatS).msg.role = "user" ∧
     (assistantRow sendState.db pS.chatId connS.userId pS.agentId
       pS.content chatS "seg one" ["seg two"] true).msg.role =
       "assistant" ∧
     assistantCount (handleMessage sendState "c1" pS 0 "sys"
        (UpstreamOutcome.bridge ["seg one", "seg two"])).1.db pS.chatId =
       assistantCount sendState.db pS.chatId + 1 ∧
     (true = true →
       ("isMultiMessage", MetaVal.b true) ∈
         (assistantRow sendState.db pS.chatId connS.userId pS.agentId
           pS.content chatS "seg one" ["seg two"] true).msg.metadata ∧
       ("additionalMessages", MetaVal.strList ["seg two"]) ∈
         (assistantRow sendState.db pS.chatId connS.userId pS.agentId
           pS.content chatS "seg one" ["seg two"] true).msg.metadata)) :=
  ⟨rfl, by decide, rfl, by decide, by decide,
    sendFlow_persists_single_assistant_row sendState "c1" pS 0 "sys"
      (UpstreamOutcome.bridge ["seg one", "seg two"]) connS chatS
      "seg one" ["seg two"] true rfl (by decide) (by decide) (by decide)
      (by decide) rfl (by decide) (by decide)⟩

lemma additionalEmissions_recipients (clientId : String) (p : Payload)
    (ai : SendMessageResponse) :
    ∀ r ev, Act.send r ev ∈ additionalEmissions clientId p ai →
      r = [clientId] := by
  intro r ev hmem
  by_cases hm : ai.isMultiMessage
  · simp only [additionalEmissions, hm, if_true, List.mem_flatMap] at hmem
    obtain ⟨pair, _, hin⟩ := hmem
    simp only [List.mem_cons, List.mem_singleton] at hin
    rcases hin with h | h | h | h
    · exact (Act.send.injEq _ _ _ _).mp h.symm |>.1.symm
    · exact (Act.send.injEq _ _ _ _).mp h.symm |>.1.symm
    · exact (Act.send.injEq _ _ _ _).mp h.symm |>.1.symm
    · exact absurd h (by simp)
  · simp only [additionalEmissions, hm, if_false] at hmem
    simp at hmem

lemma successTrace_recipients (clientId : String) (p : Payload)
    (userId : Nat) (db : Db) (chat : Chat) (primary : String)
    (additional : List String) (isMulti : Bool) :
    ∀ r ev, Act.send r ev ∈
      successTrace clientId p userId db chat primary additional isMulti →
      r = [clientId] := by
  intro r ev hmem
  simp only [successTrace, List.mem_append, List.mem_cons,
    List.mem_singleton] at hmem
  rcases hmem with (h | h | h | h | h | h | h | h | h | h) | hadd
  · exact ((Act.send.injEq _ _ _ _).mp h).1
  · exact ((Act.send.injEq _ _ _ _).mp h).1
  · exact absurd h (by simp)
  · exact absurd h (by simp)
  · exact absurd h (by simp)
  · exact absurd h (by simp)
  · exact ((Act.send.injEq _ _ _ _).mp h).1
  · exact ((Act.send.injEq _ _ _ _).mp h).1
  · exact ((Act.send.injEq _ _ _ _).mp h).1
  · exact absurd h (List.not_mem_nil _)
  · exact additionalEmissions_recipients clientId p _ r ev hadd

/-- C2 (amended): for a valid send over the socket transport, every
emission of the flow (echo, typing, confirmed message, primary reply and
every additional segment) is sent only to the originating client; other
clients subscribed to the conversation's room receive nothing from
handleMessage (broadcastToChat is not used for the AI reply). -/
theorem sendFlow_emits_only_to_origin
    (s : ServerState) (clientId : String) (p : Payload) (now : Nat)
    (systemPrompt : String) (upstream : UpstreamOutcome) (conn : ConnInfo)
    (chat : Chat) (primary : String) (additional : List String)
    (isMulti : Bool)
    (hconn : s.connections clientId = some conn)
    (hrl : (checkRateLimit s.rateLimiter conn.userId "message" now).1 = true)
    (hc : p.chatId ≠ "") (hco : p.content ≠ "") (ha : p.agentId ≠ "")
    (hchat : findChat s.db p.chatId conn.userId = some chat)
    (hvalid : validAgentPersona p.agentId = true)
    (hup : parseUpstream upstream = some (primary, additional, isMulti)) :
    (∀ r ev, Act.send r ev ∈
        (handleMessage s clientId p now systemPrompt upstream).2.1 →
      r = [clientId]) ∧
    Act.send [clientId] (Event.aiMessage p.chatId
        (assistantRow s.db p.chatId conn.userId p.agentId p.content chat
          primary additional isMulti).msg.id
        primary isMulti true (p.messageId ++ "_ai")) ∈
      (handleMessage s clientId p now systemPrompt upstream).2.1 := by
  rw [handleMessage_guards s clientId p now systemPrompt upstream conn chat
      hconn hrl hc hco ha hchat,
    handleMessageBody_success clientId p conn.userId s.db systemPrompt
      upstream chat primary additional isMulti hchat hvalid hup]
  constructor
  · exact fun r ev hmem => successTrace_recipients clientId p conn.userId
      s.db chat primary additional isMulti r ev hmem
  · simp [successTrace]

/-- C2 counterexample: in the concrete state, c2 is subscribed to the
conversation's room with an open transport, yet a valid send from c1
(with a 2-segment reply) delivers every event only to c1 and nothing to
c2. -/
theorem sendFlow_no_room_delivery_counterexample :
    ("c2" ∈ (sendState.chatRooms "chat1").getD []) ∧
    connOpen sendState "c2" = true ∧
    (handleMessage sendState "c1" pS 0 "sys"
      (UpstreamOutcome.bridge ["seg one", "seg two"])).2.2 = true ∧
    ((handleMessage sendState "c1" pS 0 "sys"
        (UpstreamOutcome.bridge ["seg one", "seg two"])).2.1.all
      (fun a => match a with
        | Act.send r _ => r == ["c1"]
        | _ => true)) = true ∧
    ((handleMessage sendState "c1" pS 0 "sys"
        (UpstreamOutcome.bridge ["seg one", "seg two"])).2.1.all
      (fun a => match a with
        | Act.send r _ => !(r.contains "c2")
        | _ => true)) = true := by
  decide

/-- Witness for C2: the amended theorem applied to the concrete
two-segment send. -/
theorem sendFlow_emits_only_to_origin_witness :
    (sendState.connections "c1" = some connS) ∧
    (findChat sendState.db pS.chatId connS.userId = some chatS) ∧
    ((∀ r ev, Act.send r ev ∈
        (handleMessage sendState "c1" pS 0 "sys"
          (UpstreamOutcome.bridge ["seg one", "seg two"])).2.1 →
      r = ["c1"]) ∧
     Act.send ["c1"] (Event.aiMessage pS.chatId
        (assistantRow sendState.db pS.chatId connS.userId pS.agentId
          pS.content chatS "seg one" ["seg two"] true).msg.id
        "seg one" true true (pS.messageId ++ "_ai")) ∈
      (handleMessage sendState "c1" pS 0 "sys"
        (UpstreamOutcome.bridge ["seg one", "seg two"])).2.1) :=
  ⟨rfl, rfl,
    sendFlow_emits_only_to_origin sendState "c1" pS 0 "sys"
      (UpstreamOutcome.bridge ["seg one", "seg two"]) connS chatS
      "seg one" ["seg two"] true rfl (by decide) (by decide) (by decide)
      (by decide) rfl (by decide) (by decide)⟩

/-- C5: for every successful send, the trace holds the user-message
persistence, then the confirmed echo of that message (carrying its
durable id and the client's correlation id), and only after it the
primary assistant emission to the requesting connection, in that strict
order. -/
theorem sendFlow_confirm_after_persist_before_primary
    (s : ServerState) (clientId : String) (p : Payload) (now : Nat)
    (systemPrompt : String) (upstream : UpstreamOutcome) (conn : ConnInfo)
    (chat : Chat) (primary : String) (additional : List String)
    (isMulti : Bool)
    (hconn : s.connections clientId = some conn)
    (hrl : (checkRateLimit s.rateLimiter conn.userId "message" now).1 = true)
    (hc : p.chatId ≠ "") (hco : p.content ≠ "") (ha : p.agentId ≠ "")
    (hchat : findChat s.db p.chatId conn.userId = some chat)
    (hvalid : validAgentPersona p.agentId = true)
    (hup : parseUpstream upstream = some (primary, additional, isMulti)) :
    ∃ (i j k : Nat) (um : Message), i < j ∧ j < k ∧
      (handleMessage s clientId p now systemPrompt upstream).2.1[i]? =
        some (Act.persistMessage um) ∧
      um.role = "user" ∧ um.content = p.content ∧
      (handleMessage s clientId p now systemPrompt upstream).2.1[j]? =
        some (Act.send [clientId]
          (Event.confirmedUserMsg p.chatId um.id um.content p.messageId)) ∧
      (handleMessage s clientId p now systemPrompt upstream).2.1[k]? =
        some (Act.send [clientId] (Event.aiMessage p.chatId
          (assistantRow s.db p.chatId conn.userId p.agentId p.content chat
            primary additional isMulti).msg.id
          primary isMulti true (p.messageId ++ "_ai"))) := by
  rw [handleMessage_guards s clientId p now systemPrompt upstream conn chat
      hconn hrl hc hco ha hchat,
    handleMessageBody_success clientId p conn.userId s.db systemPrompt
      upstream chat primary additional isMulti hchat hvalid hup]
  refine ⟨2, 6, 8,
    (userRow s.db p.chatId conn.userId p.agentId p.content chat).msg,
    by omega, by omega, ?_, ?_, ?_, ?_, ?_⟩
  · simp [successTrace]
  · simp [userRow, createMessage]
  · simp [userRow, createMessage]
  · simp [successTrace]
  · simp [successTrace]

/-- Witness for C5: the ordering theorem applied to a concrete
single-reply send. -/
theorem sendFlow_confirm_order_witness :
    (sendState.connections "c1" = some connS) ∧
    (findChat sendState.db pS.chatId connS.userId = some chatS) ∧
    (parseUpstream (UpstreamOutcome.single "hello there") =
      some ("hello there", [], false)) ∧
    (∃ (i j k : Nat) (um : Message), i < j ∧ j < k ∧
      (handleMessage sendState "c1" pS 0 "sys"
        (UpstreamOutcome.single "hello there")).2.1[i]? =
        some (Act.persistMessage um) ∧
      um.role = "user" ∧ um.content = pS.content ∧
      (handleMessage sendState "c1" pS 0 "sys"
        (UpstreamOutcome.single "hello there")).2.1[j]? =
        some (Act.send ["c1"]
          (Event.confirmedUserMsg pS.chatId um.id um.content
            pS.messageId)) ∧
      (handleMessage sendState "c1" pS 0 "sys"
        (UpstreamOutcome.single "hello there")).2.1[k]? =
        some (Act.send ["c1"] (Event.aiMessage pS.chatId
          (assistantRow sendState.db pS.chatId connS.userId pS.agentId
            pS.content chatS "hello there" [] false).msg.id
          "hello there" false true (pS.messageId ++ "_ai")))) :=
  ⟨rfl, rfl, by decide,
    sendFlow_confirm_after_persist_before_primary sendState "c1" pS 0
      "sys" (UpstreamOutcome.single "hello there") connS chatS
      "hello there" [] false rfl (by decide) (by decide) (by decide)
      (by decide) rfl (by decide) (by decide)⟩

/-- C3 (amended): when a valid send's upstream AI call fails after the
typing-started indicator was emitted, a typing-stopped event for the
same conversation/persona pair is emitted exactly once, but it is
emitted AFTER the error event is surfaced to the requesting connection
(the catch block calls sendError first, then stops typing), not before. -/
theorem sendFlow_typing_stop_after_error
    (s : ServerState) (clientId : String) (p : Payload) (now : Nat)
    (systemPrompt : String) (conn : ConnInfo) (chat : Chat)
    (hconn : s.connections clientId = some conn)
    (hrl : (checkRateLimit s.rateLimiter conn.userId "message" now).1 = true)
    (hc : p.chatId ≠ "") (hco : p.content ≠ "") (ha : p.agentId ≠ "")
    (hchat : findChat s.db p.chatId conn.userId = some chat) :
    (handleMessage s clientId p now systemPrompt
      UpstreamOutcome.failure).2.2 = false ∧
    (handleMessage s clientId p now systemPrompt
      UpstreamOutcome.failure).2.1 =
      errorTrace clientId p conn.userId s.db chat ∧
    (handleMessage s clientId p now systemPrompt
      UpstreamOutcome.failure).2.1[1]? =
      some (Act.send [clientId] (Event.typing p.chatId p.agentId true)) ∧
    (handleMessage s clientId p now systemPrompt
      UpstreamOutcome.failure).2.1[4]? =
      some (Act.send [clientId]
        (Event.errorMessage "Failed to process message" 400)) ∧
    (handleMessage s clientId p now systemPrompt
      UpstreamOutcome.failure).2.1[5]? =
      some (Act.send [clientId] (Event.typing p.chatId p.agentId false)) ∧
    (∀ i, i < 5 →
      (handleMessage s clientId p now systemPrompt
        UpstreamOutcome.failure).2.1[i]? ≠
      some (Act.send [clientId] (Event.typing p.chatId p.agentId false))) := by
  rw [handleMessage_guards s clientId p now systemPrompt
      UpstreamOutcome.failure conn chat hconn hrl hc hco ha hchat,
    handleMessageBody_error clientId p conn.userId s.db systemPrompt
      UpstreamOutcome.failure chat hchat (Or.inr rfl) hc ha]
  refine ⟨rfl, rfl, by simp [errorTrace], by simp [errorTrace],
    by simp [errorTrace], ?_⟩
  intro i hi
  interval_cases i <;> simp [errorTrace]

/-- C3 counterexample: in the concrete failing send the error event sits
at index 4 and the only typing-stopped event at index 5, after it; no
typing-stopped is emitted before the error, refuting the claimed order. -/
theorem sendFlow_typing_stop_order_counterexample :
    (handleMessage sendState "c1" pS 0 "sys"
      UpstreamOutcome.failure).2.1.length = 6 ∧
    (handleMessage sendState "c1" pS 0 "sys"
      UpstreamOutcome.failure).2.1[1]? =
      some (Act.send ["c1"] (Event.typing "chat1" "priya" true)) ∧
    (handleMessage sendState "c1" pS 0 "sys"
      UpstreamOutcome.failure).2.1[4]? =
      some (Act.send ["c1"]
        (Event.errorMessage "Failed to process message" 400)) ∧
    (handleMessage sendState "c1" pS 0 "sys"
      UpstreamOutcome.failure).2.1[5]? =
      some (Act.send ["c1"] (Event.typing "chat1" "priya" false)) ∧
    (((handleMessage sendState "c1" pS 0 "sys"
        UpstreamOutcome.failure).2.1.take 4).all
      (fun a => a != Act.send ["c1"]
        (Event.typing "chat1" "priya" false))) = true := by
  decide

/-- Witness for C3: the amended theorem applied to the concrete failing
send. -/
theorem sendFlow_typing_stop_after_error_witness :
    (sendState.connections "c1" = some connS) ∧
    (findChat sendState.db pS.chatId connS.userId = some chatS) ∧
    ((handleMessage sendState "c1" pS 0 "sys"
        UpstreamOutcome.failure).2.2 = false ∧
     (handleMessage sendState "c1" pS 0 "sys"
        UpstreamOutcome.failure).2.1 =
       errorTrace "c1" pS connS.userId sendState.db chatS ∧
     (handleMessage sendState "c1" pS 0 "sys"
        UpstreamOutcome.failure).2.1[1]? =
       some (Act.send ["c1"] (Event.typing pS.chatId pS.agentId true)) ∧
     (handleMessage sendState "c1" pS 0 "sys"
        UpstreamOutcome.failure).2.1[4]? =
       some (Act.send ["c1"]
         (Event.errorMessage "Failed to process message" 400)) ∧
     (handleMessage sendState "c1" pS 0 "sys"
        UpstreamOutcome.failure).2.1[5]? =
       some (Act.send ["c1"] (Event.typing pS.chatId pS.agentId false)) ∧
     (∀ i, i < 5 →
       (handleMessage sendState "c1" pS 0 "sys"
          UpstreamOutcome.failure).2.1[i]? ≠
       some (Act.send ["c1"]
         (Event.typing pS.chatId pS.agentId false)))) :=
  ⟨rfl, rfl,
    sendFlow_typing_stop_after_error sendState "c1" pS 0 "sys" connS chatS
      rfl (by decide) (by decide) (by decide) (by decide) rfl⟩

lemma find?_map_pred {α : Type} (f : α → α) (pb : α → Bool)
    (l : List α) (h : ∀ a, pb (f a) = pb a) :
    (l.map f).find? pb = (l.find? pb).map f := by
  induction l with
  | nil => rfl
  | cons a t ih =>
    by_cases hpa : pb a = true
    · rw [List.map_cons, List.find?_cons_of_pos _ (by rw [h a]; exact hpa),
        List.find?_cons_of_pos _ hpa, Option.map_some']
    · rw [List.map_cons,
        List.find?_cons_of_neg _ (by rw [h a]; exact hpa),
        List.find?_cons_of_neg _ hpa]
      exact ih

lemma findChat_updateChatAfterMessage (db : Db) (chatId : String)
    (lastMsg : String) (cid : String) (uid : Nat) :
    findChat (updateChatAfterMessage db chatId lastMsg) cid uid =
      (findChat db cid uid).map (fun c =>
        if c.id == chatId then
          { c with
            messageCount := c.messageCount + 1
            lastMessage := lastMsg
            updatedAt := db.clock }
        else c) := by
  unfold findChat updateChatAfterMessage
  apply find?_map_pred
  intro c
  by_cases hcc : c.id == chatId <;> simp [hcc]

/-- C4 (amended): a send whose chat id, text or persona id is empty is
rejected by the transport format validation with no store mutation at
all; but a send whose persona id is non-empty yet outside the enumerated
set passes that validation, so the user message IS persisted and the
conversation's message count, last-message snippet and timestamp ARE
mutated before the flow fails with the persona validation error raised
inside AI-response generation. -/
theorem invalid_persona_rejected_after_persistence :
    (∀ (s : ServerState) (clientId : String) (p : Payload) (now : Nat)
        (systemPrompt : String) (upstream : UpstreamOutcome)
        (conn : ConnInfo),
      s.connections clientId = some conn →
      (checkRateLimit s.rateLimiter conn.userId "message" now).1 = true →
      (p.chatId = "" ∨ p.content = "" ∨ p.agentId = "") →
      (handleMessage s clientId p now systemPrompt upstream).1.db = s.db ∧
      (handleMessage s clientId p now systemPrompt upstream).2.1 =
        [Act.send [clientId]
          (Event.errorMessage "Invalid message format" 400)] ∧
      (handleMessage s clientId p now systemPrompt upstream).2.2 = false) ∧
    (∀ (s : ServerState) (clientId : String) (p : Payload) (now : Nat)
        (systemPrompt : String) (upstream : UpstreamOutcome)
        (conn : ConnInfo) (chat : Chat),
      s.connections clientId = some conn →
      (checkRateLimit s.rateLimiter conn.userId "message" now).1 = true →
      p.chatId ≠ "" → p.content ≠ "" → p.agentId ≠ "" →
      findChat s.db p.chatId conn.userId = some chat →
      validAgentPersona p.agentId = false →
      (handleMessage s clientId p now systemPrompt upstream).2.2 = false ∧
      Act.send [clientId]
          (Event.errorMessage "Failed to process message" 400) ∈
        (handleMessage s clientId p now systemPrompt upstream).2.1 ∧
      (handleMessage s clientId p now systemPrompt upstream).1.db.messages =
        s.db.messages ++
          [(userRow s.db p.chatId conn.userId p.agentId p.content
            chat).msg] ∧
      (userRow s.db p.chatId conn.userId p.agentId p.content
        chat).msg.role = "user" ∧
      (userRow s.db p.chatId conn.userId p.agentId p.content
        chat).msg.content = p.content ∧
      (∃ c2, findChat (handleMessage s clientId p now systemPrompt
          upstream).1.db p.chatId conn.userId = some c2 ∧
        c2.messageCount = chat.messageCount + 1 ∧
        c2.lastMessage = p.content)) := by
  constructor
  · intro s clientId p now systemPrompt upstream conn hconn hrl hfmt
    have hcond : (p.chatId == "" || p.content == "" || p.agentId == "") =
        true := by
      rcases hfmt with h | h | h <;> simp [h]
    simp [handleMessage, hconn, hrl, hcond]
  · intro s clientId p now systemPrompt upstream conn chat hconn hrl hc
      hco ha hchat hinvalid
    rw [handleMessage_guards s clientId p now systemPrompt upstream conn
        chat hconn hrl hc hco ha hchat,
      handleMessageBody_error clientId p conn.userId s.db systemPrompt
        upstream chat hchat (Or.inl hinvalid) hc ha]
    have hid : chat.id = p.chatId := by
      have := List.find?_some hchat
      simp at this
      exact this.1
    refine ⟨rfl, by simp [errorTrace], ?_, by simp [userRow, createMessage],
      by simp [userRow, createMessage], ?_⟩
    · simp [dbAfterUser, userRow, createMessage, updateChatAfterMessage]
    · refine ⟨{ chat with
          messageCount := chat.messageCount + 1
          lastMessage := p.content
          updatedAt := (userRow s.db p.chatId conn.userId p.agentId
            p.content chat).db.clock }, ?_, rfl, rfl⟩
      show findChat (dbAfterUser s.db p.chatId conn.userId p.agentId
        p.content chat) p.chatId conn.userId = _
      rw [dbAfterUser, findChat_updateChatAfterMessage]
      have hfu : findChat (userRow s.db p.chatId conn.userId p.agentId
          p.content chat).db p.chatId conn.userId =
          findChat s.db p.chatId conn.userId := rfl
      rw [hfu, hchat, Option.map_some']
      have hbeq : (chat.id == p.chatId) = true := by
        rw [hid]
        simp
      simp [hbeq]

/-- C4 counterexample: a send with the non-empty invalid persona id guru
is rejected (result false, error emitted), yet the user message has been
persisted and the conversation's message count and snippet mutated
before the rejection. -/
theorem invalid_persona_mutation_counterexample :
    (handleMessage sendState "c1"
      { chatId := "chat1", content := "hi", agentId := "guru",
        messageId := "corr1" } 0 "sys"
      (UpstreamOutcome.single "x")).2.2 = false ∧
    ((handleMessage sendState "c1"
      { chatId := "chat1", content := "hi", agentId := "guru",
        messageId := "corr1" } 0 "sys"
      (UpstreamOutcome.single "x")).1.db.messages.map
        (fun m => (m.role, m.content))) = [("user", "hi")] ∧
    ((handleMessage sendState "c1"
      { chatId := "chat1", content := "hi", agentId := "guru",
        messageId := "corr1" } 0 "sys"
      (UpstreamOutcome.single "x")).1.db.chats.map
        (fun c => (c.id, c.messageCount, c.lastMessage))) =
      [("chat1", 1, "hi")] ∧
    (Act.send ["c1"] (Event.errorMessage "Failed to process message" 400)
      ∈ (handleMessage sendState "c1"
        { chatId := "chat1", content := "hi", agentId := "guru",
          messageId := "corr1" } 0 "sys"
        (UpstreamOutcome.single "x")).2.1) := by
  decide

/-- Witness for C4: both parts of the theorem applied to concrete
inputs: an empty-text send is rejected with no store change, and a
guru-persona send is rejected only after persistence. -/
theorem invalid_persona_rejected_after_persistence_witness :
    ((handleMessage sendState "c1"
        { chatId := "chat1", content := "", agentId := "priya",
          messageId := "corr9" } 0 "sys"
        (UpstreamOutcome.single "x")).1.db = sendState.db ∧
     (handleMessage sendState "c1"
        { chatId := "chat1", content := "", agentId := "priya",
          messageId := "corr9" } 0 "sys"
        (UpstreamOutcome.single "x")).2.1 =
       [Act.send ["c1"] (Event.errorMessage "Invalid message format" 400)] ∧
     (handleMessage sendState "c1"
        { chatId := "chat1", content := "", agentId := "priya",
          messageId := "corr9" } 0 "sys"
        (UpstreamOutcome.single "x")).2.2 = false) ∧
    ((handleMessage sendState "c1"
        { chatId := "chat1", content := "hi", agentId := "guru",
          messageId := "corr1" } 0 "sys"
        (UpstreamOutcome.single "x")).2.2 = false ∧
     Act.send ["c1"]
         (Event.errorMessage "Failed to process message" 400) ∈
       (handleMessage sendState "c1"
         { chatId := "chat1", content := "hi", agentId := "guru",
           messageId := "corr1" } 0 "sys"
         (UpstreamOutcome.single "x")).2.1 ∧
     (handleMessage sendState "c1"
        { chatId := "chat1", content := "hi", agentId := "guru",
          messageId := "corr1" } 0 "sys"
        (UpstreamOutcome.single "x")).1.db.messages =
       sendState.db.messages ++
         [(userRow sendState.db "chat1" connS.userId "guru" "hi"
           chatS).msg] ∧
     (userRow sendState.db "chat1" connS.userId "guru" "hi"
       chatS).msg.role = "user" ∧
     (userRow sendState.db "chat1" connS.userId "guru" "hi"
       chatS).msg.content = "hi" ∧
     (∃ c2, findChat (handleMessage sendState "c1"
         { chatId := "chat1", content := "hi", agentId := "guru",
           messageId := "corr1" } 0 "sys"
         (UpstreamOutcome.single "x")).1.db "chat1" connS.userId =
           some c2 ∧
       c2.messageCount = chatS.messageCount + 1 ∧
       c2.lastMessage = "hi")) :=
  ⟨invalid_persona_rejected_after_persistence.1 sendState "c1"
      { chatId := "chat1", content := "", agentId := "priya",
        messageId := "corr9" } 0 "sys" (UpstreamOutcome.single "x") connS
      rfl (by decide) (Or.inr (Or.inl rfl)),
   invalid_persona_rejected_after_persistence.2 sendState "c1"
      { chatId := "chat1", content := "hi", agentId := "guru",
        messageId := "corr1" } 0 "sys" (UpstreamOutcome.single "x") connS
      chatS rfl (by decide) (by decide) (by decide) (by decide) rfl
      (by decide)⟩

end Niya
